import Mathlib

/-!
# A verification model of the Reddit OAuth2 token manager

Shallow embedding of `src/RedditClient.ts`: the configuration and token
records, the grant-selection and token-construction logic of
`requestToken`, the freshness check of `getToken`, and a small-step
event semantics for the promise-deduplicated refresh logic.

The concurrency model follows the JavaScript execution model of the
source: a single-threaded event loop in which the synchronous prefix of
an `async` function (everything up to the first `await`) runs atomically,
and in which all continuations attached to a settled promise run as one
batch before any new call is processed. The manager's mutable state is
exactly the `token` cache and the `tokenPromise` in-flight handle;
callers of `getToken` are modelled as explicit coroutine states.

Times are integer milliseconds, as returned by `Date.now()`.
-/

deriving instance DecidableEq for Except

/-- The construction-time configuration (`RedditAuthConfig` in the source).
Optional fields are `Option String`; JavaScript treats a missing field and
an empty string alike as falsy, which `jsTruthy` below captures. -/
structure RedditAuthConfig where
  clientId : String
  clientSecret : String
  username : Option String
  password : Option String
  userAgent : String
  refreshToken : Option String
deriving DecidableEq

/-- The cached token record (`RedditToken` in the source). `expiresAt` is
an absolute timestamp in milliseconds. -/
structure RedditToken where
  accessToken : String
  tokenType : String
  expiresIn : Int
  refreshToken : Option String
  scope : String
  expiresAt : Int
deriving DecidableEq

/-- The JSON body of a successful response from the authorization
endpoint, with the field names of the wire format. -/
structure TokenResponse where
  access_token : String
  token_type : String
  expires_in : Int
  refresh_token : Option String
  scope : String
deriving DecidableEq

/-- Failures of the token path: the configuration error thrown at line 97
of the source when no grant is usable, and the authorization failure
surfaced when the network call to the token endpoint rejects. -/
inductive TokenError where
  | configurationError (msg : String)
  | authError
deriving DecidableEq

/-- The grant-specific form body sent to the token endpoint. -/
inductive GrantBody where
  | refreshTokenGrant (refresh_token : String)
  | passwordGrant (username password : String)
deriving DecidableEq

/-- The form-urlencoded key/value pairs of a grant body, as built from the
`data` record at line 104 of the source. -/
def GrantBody.formData : GrantBody → List (String × String)
  | .refreshTokenGrant rt => [("grant_type", "refresh_token"), ("refresh_token", rt)]
  | .passwordGrant u p => [("grant_type", "password"), ("username", u), ("password", p)]

/-- JavaScript truthiness of an optional string: `undefined` and `""` are
falsy, every other string is truthy. -/
def jsTruthy : Option String → Bool
  | some s => !(s == "")
  | none => false

/-- The JavaScript `a || b` on optional strings: the left operand if it is
truthy, otherwise the right operand unchanged. -/
def jsOr (a b : Option String) : Option String :=
  if jsTruthy a then a else b

/-- The JavaScript `a || d` where the default `d` is a plain string, as in
`... || ''` at line 87 of the source. -/
def jsOrStr (a : Option String) (d : String) : String :=
  if jsTruthy a then a.getD d else d

/-- Grant selection, lines 81–98 of `requestToken`: prefer
`grant_type=refresh_token` using `this.token?.refreshToken ||
this.config.refreshToken`, fall back to `grant_type=password` when
username and password are both truthy, otherwise throw the
configuration error. No network call is made on the error path. -/
def buildRequestBody (token : Option RedditToken) (config : RedditAuthConfig) :
    Except TokenError GrantBody :=
  if jsTruthy (jsOr (token.bind RedditToken.refreshToken) config.refreshToken) then
    Except.ok (GrantBody.refreshTokenGrant
      (jsOrStr (jsOr (token.bind RedditToken.refreshToken) config.refreshToken) ""))
  else if jsTruthy config.username && jsTruthy config.password then
    match config.username, config.password with
    | some u, some p => Except.ok (GrantBody.passwordGrant u p)
    | _, _ => Except.error (TokenError.configurationError
        "Either refreshToken or username/password must be provided")
  else
    Except.error (TokenError.configurationError
      "Either refreshToken or username/password must be provided")

/-- Token construction from a successful response, lines 109–119 of the
source: `expiresAt = Date.now() + expires_in * 1000`, and the refresh
token is `response.data.refresh_token || this.token?.refreshToken ||
this.config.refreshToken`. -/
def mkToken (resp : TokenResponse) (prev : Option RedditToken)
    (config : RedditAuthConfig) (now : Int) : RedditToken :=
  { accessToken := resp.access_token
    tokenType := resp.token_type
    expiresIn := resp.expires_in
    refreshToken := jsOr (jsOr resp.refresh_token (prev.bind RedditToken.refreshToken))
      config.refreshToken
    scope := resp.scope
    expiresAt := now + resp.expires_in * 1000 }

/-- The freshness check of `getToken`, line 57 of the source:
`this.token && this.token.expiresAt > Date.now() + 60000`. -/
def isTokenValid (token : Option RedditToken) (now : Int) : Bool :=
  match token with
  | some t => now + 60000 < t.expiresAt
  | none => false

/-! ## The event-loop model of `getToken`

A caller of `getToken` is a coroutine. Its synchronous prefix (lines
49–62 of the source: the `tokenPromise` check, the freshness check, and —
when a refresh is needed — the synchronous start of `requestToken` up to
the `axios.post` call followed by the assignment of `tokenPromise`) runs
as one atomic step of the event loop. The caller then suspends awaiting
the in-flight promise. When that promise settles, the owner's
continuation (lines 65–72: assign `this.token` on success, rethrow on
failure, clear `tokenPromise` in the `finally`) and every attached
waiter's continuation (lines 52–53) run as one batch of microtasks,
before any further `getToken` invocation is processed. -/

/-- The coroutine state of one `getToken` caller: not yet run, awaiting
the shared in-flight promise it found already set (line 52), awaiting the
refresh it itself started (line 65), or finished with a result. Promises
are identified by the `Nat` id they were created with. -/
inductive CallerState where
  | ready
  | attached (pid : Nat)
  | owner (pid : Nat)
  | done (r : Except TokenError String)
deriving DecidableEq

/-- The in-flight `tokenPromise`: its id and the outcome it will settle
with. For a real network call the outcome is the environment's reply; for
the configuration-error path of `requestToken` it is the already-rejected
promise produced by the throw at line 97, with no network call made. -/
structure Pending where
  pid : Nat
  outcome : Except TokenError TokenResponse
deriving DecidableEq

/-- The manager state together with the caller coroutines and
instrumentation: `netCalls` counts POSTs to the authorization endpoint,
`nextPid` supplies fresh promise ids. -/
structure Sys where
  config : RedditAuthConfig
  token : Option RedditToken
  tokenPromise : Option Pending
  callers : List CallerState
  nextPid : Nat
  netCalls : Nat
deriving DecidableEq

/-- The synchronous start of `requestToken` (called at line 62): select
the grant; on success initiate the POST to the token endpoint (counted in
`netCalls`) whose reply `net` the environment chooses, on failure produce
the already-rejected promise. Either way `tokenPromise` is set before the
caller suspends, and caller `i` awaits it as its owner. -/
def startRefresh (s : Sys) (i : Nat) (net : Except Unit TokenResponse) : Sys :=
  match buildRequestBody s.token s.config with
  | Except.error e =>
    { s with tokenPromise := some ⟨s.nextPid, Except.error e⟩
             nextPid := s.nextPid + 1
             callers := s.callers.set i (CallerState.owner s.nextPid) }
  | Except.ok _ =>
    { s with tokenPromise := some ⟨s.nextPid, net.mapError fun _ => TokenError.authError⟩
             nextPid := s.nextPid + 1
             netCalls := s.netCalls + 1
             callers := s.callers.set i (CallerState.owner s.nextPid) }

/-- The atomic synchronous prefix of `getToken` for caller `i` at time
`now` (lines 49–62): attach to an existing `tokenPromise` if there is one;
otherwise return the cached token if it passes the freshness check;
otherwise start a refresh. A caller that is not `ready` (or an index out
of range) has no prefix to run and the step is a no-op. -/
def invokeStep (s : Sys) (i : Nat) (now : Int) (net : Except Unit TokenResponse) : Sys :=
  match s.callers[i]? with
  | some CallerState.ready =>
    match s.tokenPromise with
    | some p => { s with callers := s.callers.set i (CallerState.attached p.pid) }
    | none =>
      match s.token with
      | some t =>
        if now + 60000 < t.expiresAt then
          { s with callers := s.callers.set i (CallerState.done (Except.ok t.accessToken)) }
        else startRefresh s i net
      | none => startRefresh s i net
  | _ => s

/-- How one caller's continuation resumes when promise `pid` settles with
result `r`: a caller awaiting `pid` finishes with `r`, every other caller
is untouched. -/
def completeCaller (pid : Nat) (r : Except TokenError String) : CallerState → CallerState
  | CallerState.attached q => if q = pid then CallerState.done r else CallerState.attached q
  | CallerState.owner q => if q = pid then CallerState.done r else CallerState.owner q
  | c => c

/-- Settlement of the in-flight promise at time `now`, run as one batch:
on success the owner's continuation stores the new token built by
`requestToken` (lines 109–119 and 65) and the `finally` clears
`tokenPromise`; every awaiting caller resolves to the new token's access
token. On failure `this.token` is left unchanged (the assignment at line
65 never runs), `tokenPromise` is cleared, and every awaiting caller
rejects with the same error. No-op when nothing is in flight. -/
def settleStep (s : Sys) (now : Int) : Sys :=
  match s.tokenPromise with
  | none => s
  | some p =>
    match p.outcome with
    | Except.ok resp =>
      let newTok := mkToken resp s.token s.config now
      { s with token := some newTok
               tokenPromise := none
               callers := s.callers.map
                 (completeCaller p.pid (Except.ok newTok.accessToken)) }
    | Except.error e =>
      { s with tokenPromise := none
               callers := s.callers.map (completeCaller p.pid (Except.error e)) }

/-- An event of the loop: a caller's `getToken` invocation (with the
environment's network reply, used only if this invocation starts a
refresh) or the settlement of the in-flight promise. Each event carries
the `Date.now()` value observed while it runs. -/
inductive Event where
  | invoke (i : Nat) (now : Int) (net : Except Unit TokenResponse)
  | settle (now : Int)
deriving DecidableEq

/-- The index of the caller an event belongs to, if it is an invocation. -/
def Event.callerIdx : Event → Option Nat
  | .invoke i _ _ => some i
  | .settle _ => none

/-- Whether an event is a `getToken` invocation. -/
def Event.isInvoke : Event → Bool
  | .invoke _ _ _ => true
  | .settle _ => false

/-- One step of the event loop. -/
def applyEvent (s : Sys) : Event → Sys
  | .invoke i now net => invokeStep s i now net
  | .settle now => settleStep s now

/-- A run of the event loop over a list of events. -/
def applyEvents (s : Sys) (evs : List Event) : Sys :=
  evs.foldl applyEvent s

/-- The state of a freshly constructed client with `n` pending `getToken`
callers: no token cached, nothing in flight, no network traffic. -/
def initSys (config : RedditAuthConfig) (n : Nat) : Sys :=
  { config := config
    token := none
    tokenPromise := none
    callers := List.replicate n CallerState.ready
    nextPid := 0
    netCalls := 0 }

/-! ## The authorized request layer

`getApiClient` and `request` (lines 129–162 of the source) are thin and
stateless: they compose the outcome of `getToken` with the transport. The
embedding takes the outcome of token acquisition and the transport as
parameters; both `catch` blocks of the source log and rethrow the same
error, so propagation is unchanged. -/

/-- The client object built at lines 133–139: base URL of the resource
API, bearer authorization header, configured user agent. -/
structure ApiClient where
  baseURL : String
  authorization : String
  userAgent : String
deriving DecidableEq

/-- `getApiClient` (lines 129–144): propagate a token-acquisition failure
unchanged, otherwise build the bearer client for the resource host. -/
def getApiClient (config : RedditAuthConfig)
    (tokenResult : Except TokenError String) : Except TokenError ApiClient :=
  match tokenResult with
  | Except.error e => Except.error e
  | Except.ok tok =>
    Except.ok { baseURL := "https://oauth.reddit.com"
                authorization := "Bearer " ++ tok
                userAgent := config.userAgent }

/-- `request` (lines 149–162): obtain the api client, then issue the
transport call with the caller's url and options passed through; transport
success and failure are propagated as-is, token failures unchanged on the
left. -/
def request {E α ρ : Type} (config : RedditAuthConfig)
    (tokenResult : Except TokenError String)
    (transport : ApiClient → String → ρ → Except E α)
    (url : String) (options : ρ) : Except (TokenError ⊕ E) α :=
  match getApiClient config tokenResult with
  | Except.error e => Except.error (Sum.inl e)
  | Except.ok apiClient =>
    match transport apiClient url options with
    | Except.ok v => Except.ok v
    | Except.error e => Except.error (Sum.inr e)

/-! ## The refresh-epoch invariant

State of the system between the step that starts a refresh from a fresh
client and the settlement of that refresh. -/

/-- During the epoch of the one refresh `p` started from a fresh `n`-caller
client: `p` is the in-flight promise, exactly one network call has been
made, no token is cached, and every caller is still ready or awaiting
precisely `p`. -/
structure RefreshEpoch (n : Nat) (p : Pending) (s : Sys) : Prop where
  inflight : s.tokenPromise = some p
  calls : s.netCalls = 1
  tok : s.token = none
  len : s.callers.length = n
  good : ∀ c ∈ s.callers, c = CallerState.ready ∨ c = CallerState.attached p.pid
    ∨ c = CallerState.owner p.pid

/-! ## Concrete fixtures -/

/-- A configuration holding only a refresh token. -/
def rtConfig : RedditAuthConfig :=
  { clientId := "id", clientSecret := "secret", username := none,
    password := none, userAgent := "agent/1.0", refreshToken := some "RT0" }

/-- A configuration holding a refresh token and username/password. -/
def fullConfig : RedditAuthConfig :=
  { clientId := "id", clientSecret := "secret", username := some "user",
    password := some "pass", userAgent := "agent/1.0", refreshToken := some "RT0" }

/-- A configuration with no usable grant: no refresh token, no
username/password. -/
def emptyConfig : RedditAuthConfig :=
  { clientId := "id", clientSecret := "secret", username := none,
    password := none, userAgent := "agent/1.0", refreshToken := none }

/-- A successful token response that omits `refresh_token`. -/
def plainResp : TokenResponse :=
  { access_token := "AT1", token_type := "bearer", expires_in := 3600,
    refresh_token := none, scope := "read" }

/-- A cached token that is stale at every time from `0` on. -/
def staleTok : RedditToken :=
  { accessToken := "OLD", tokenType := "bearer", expiresIn := 3600,
    refreshToken := some "RTC", scope := "read", expiresAt := 1000 }

/-- A cached token that is fresh at the small times used below. -/
def freshTok : RedditToken :=
  { accessToken := "FRESH", tokenType := "bearer", expiresIn := 3600,
    refreshToken := some "RTC", scope := "read", expiresAt := 10000000 }

/-- A quiescent state holding the stale cached token, with two callers
about to invoke `getToken`. -/
def staleStart : Sys :=
  { config := rtConfig
    token := some staleTok
    tokenPromise := none
    callers := [CallerState.ready, CallerState.ready]
    nextPid := 0
    netCalls := 0 }

/-- The run from `staleStart` in which both callers invoke while the
token is stale and the refresh fails. -/
def staleFailedRun : Sys :=
  applyEvents staleStart
    [Event.invoke 0 100000 (Except.error ()),
     Event.invoke 1 100000 (Except.error ()),
     Event.settle 100001]

/-- A state with a failing refresh in flight, started while the stale
token was cached: caller 0 owns the refresh, caller 1 is attached,
caller 2 has not yet run. -/
def failingSys : Sys :=
  { config := rtConfig
    token := some staleTok
    tokenPromise := some ⟨0, Except.error TokenError.authError⟩
    callers := [CallerState.owner 0, CallerState.attached 0, CallerState.ready]
    nextPid := 1
    netCalls := 1 }

/-- A state with a succeeding refresh in flight over the refresh-token
configuration, started from an empty cache: caller 0 owns the refresh,
whose response will omit `refresh_token`. -/
def failingSysOk : Sys :=
  { config := rtConfig
    token := none
    tokenPromise := some ⟨0, Except.ok plainResp⟩
    callers := [CallerState.owner 0]
    nextPid := 1
    netCalls := 1 }

/-- A quiescent state holding the fresh cached token, with one caller
about to invoke `getToken`. -/
def freshStart : Sys :=
  { config := rtConfig
    token := some freshTok
    tokenPromise := none
    callers := [CallerState.ready]
    nextPid := 0
    netCalls := 0 }

section Sanity

example : jsOr (some "") (some "x") = some "x" := by decide
example : jsTruthy (jsOr none (some "rt")) = true := by decide

example :
    buildRequestBody none
      { clientId := "i", clientSecret := "s", username := some "u",
        password := some "p", userAgent := "ua", refreshToken := some "rt" }
      = Except.ok (GrantBody.refreshTokenGrant "rt") := by decide

example :
    buildRequestBody none
      { clientId := "i", clientSecret := "s", username := some "u",
        password := some "p", userAgent := "ua", refreshToken := none }
      = Except.ok (GrantBody.passwordGrant "u" "p") := by decide

example :
    buildRequestBody none
      { clientId := "i", clientSecret := "s", username := none,
        password := none, userAgent := "ua", refreshToken := none }
      = Except.error (TokenError.configurationError
          "Either refreshToken or username/password must be provided") := by decide

example :
    let cfg : RedditAuthConfig :=
      { clientId := "i", clientSecret := "s", username := none,
        password := none, userAgent := "ua", refreshToken := some "rt" }
    let resp : TokenResponse :=
      { access_token := "AT1", token_type := "bearer", expires_in := 3600,
        refresh_token := none, scope := "read" }
    let final := applyEvents (initSys cfg 2)
      [Event.invoke 0 0 (Except.ok resp),
       Event.invoke 1 1 (Except.ok resp),
       Event.settle 5]
    final.netCalls = 1
      ∧ final.callers =
          [CallerState.done (Except.ok "AT1"), CallerState.done (Except.ok "AT1")]
      ∧ final.token = some (mkToken resp none cfg 5)
      ∧ final.tokenPromise = none := by decide

end Sanity

/-! ## Branch equations for the step functions -/

/-- An invocation by a caller that is not `ready` (or out of range) is a
no-op. -/
theorem invokeStep_not_ready (s : Sys) (i : Nat) (now : Int)
    (net : Except Unit TokenResponse)
    (hc : s.callers[i]? ≠ some CallerState.ready) :
    invokeStep s i now net = s := by
  unfold invokeStep
  cases h : s.callers[i]? with
  | none => rfl
  | some c =>
    cases c with
    | ready => exact absurd h hc
    | attached q => rfl
    | owner q => rfl
    | done r => rfl

/-- A `ready` caller that finds a promise in flight attaches to it. -/
theorem invokeStep_attach (s : Sys) (i : Nat) (now : Int)
    (net : Except Unit TokenResponse) (p : Pending)
    (hc : s.callers[i]? = some CallerState.ready)
    (hp : s.tokenPromise = some p) :
    invokeStep s i now net
      = { s with callers := s.callers.set i (CallerState.attached p.pid) } := by
  unfold invokeStep
  rw [hc, hp]

/-- A `ready` caller that finds nothing in flight and a fresh cached token
finishes at once with that token's access token. -/
theorem invokeStep_cache_hit (s : Sys) (i : Nat) (now : Int)
    (net : Except Unit TokenResponse) (t : RedditToken)
    (hc : s.callers[i]? = some CallerState.ready)
    (hp : s.tokenPromise = none)
    (ht : s.token = some t)
    (hv : now + 60000 < t.expiresAt) :
    invokeStep s i now net
      = { s with callers :=
            s.callers.set i (CallerState.done (Except.ok t.accessToken)) } := by
  unfold invokeStep
  rw [hc, hp, ht]
  simp only [hv, if_true]

/-- A `ready` caller that finds nothing in flight and no cached token
starts a refresh. -/
theorem invokeStep_refresh_of_none (s : Sys) (i : Nat) (now : Int)
    (net : Except Unit TokenResponse)
    (hc : s.callers[i]? = some CallerState.ready)
    (hp : s.tokenPromise = none)
    (ht : s.token = none) :
    invokeStep s i now net = startRefresh s i net := by
  unfold invokeStep
  rw [hc, hp, ht]

/-- A `ready` caller that finds nothing in flight and a stale cached token
starts a refresh. -/
theorem invokeStep_refresh_of_stale (s : Sys) (i : Nat) (now : Int)
    (net : Except Unit TokenResponse) (t : RedditToken)
    (hc : s.callers[i]? = some CallerState.ready)
    (hp : s.tokenPromise = none)
    (ht : s.token = some t)
    (hv : ¬ now + 60000 < t.expiresAt) :
    invokeStep s i now net = startRefresh s i net := by
  unfold invokeStep
  rw [hc, hp, ht]
  simp only [hv, if_false]


/-- When the grant selection succeeds, starting a refresh initiates the
network call (whose reply the environment supplies) and installs the
in-flight handle before the caller suspends. -/
theorem startRefresh_of_ok (s : Sys) (i : Nat)
    (net : Except Unit TokenResponse) (g : GrantBody)
    (hb : buildRequestBody s.token s.config = Except.ok g) :
    startRefresh s i net
      = { s with
          tokenPromise := some ⟨s.nextPid, net.mapError fun _ => TokenError.authError⟩,
          nextPid := s.nextPid + 1,
          netCalls := s.netCalls + 1,
          callers := s.callers.set i (CallerState.owner s.nextPid) } := by
  unfold startRefresh
  rw [hb]

/-- When the grant selection fails, starting a refresh makes no network
call: the in-flight handle is the already-rejected promise. -/
theorem startRefresh_of_error (s : Sys) (i : Nat)
    (net : Except Unit TokenResponse) (e : TokenError)
    (hb : buildRequestBody s.token s.config = Except.error e) :
    startRefresh s i net
      = { s with
          tokenPromise := some ⟨s.nextPid, Except.error e⟩,
          nextPid := s.nextPid + 1,
          callers := s.callers.set i (CallerState.owner s.nextPid) } := by
  unfold startRefresh
  rw [hb]

/-- Settling with nothing in flight is a no-op. -/
theorem settleStep_none (s : Sys) (now : Int) (hp : s.tokenPromise = none) :
    settleStep s now = s := by
  unfold settleStep
  rw [hp]

/-- Settling a successful refresh caches the constructed token, clears the
handle, and resolves every awaiting caller with its access token. -/
theorem settleStep_ok (s : Sys) (now : Int) (p : Pending) (resp : TokenResponse)
    (hp : s.tokenPromise = some p)
    (ho : p.outcome = Except.ok resp) :
    settleStep s now
      = { s with
          token := some (mkToken resp s.token s.config now),
          tokenPromise := none,
          callers := s.callers.map (completeCaller p.pid
            (Except.ok (mkToken resp s.token s.config now).accessToken)) } := by
  unfold settleStep
  rw [hp]
  simp only [ho]

/-- Settling a failed refresh leaves the cached token untouched, clears
the handle, and rejects every awaiting caller with the same error. -/
theorem settleStep_error (s : Sys) (now : Int) (p : Pending) (e : TokenError)
    (hp : s.tokenPromise = some p)
    (ho : p.outcome = Except.error e) :
    settleStep s now
      = { s with
          tokenPromise := none,
          callers := s.callers.map (completeCaller p.pid (Except.error e)) } := by
  unfold settleStep
  rw [hp]
  simp only [ho]

/-! ## Step lemmas built from the branch equations -/

/-- Case analysis: an invocation step is a no-op, an attach, a cache hit,
or a refresh start. -/
theorem invokeStep_cases (s : Sys) (i : Nat) (now : Int)
    (net : Except Unit TokenResponse) :
    (s.callers[i]? ≠ some CallerState.ready ∧ invokeStep s i now net = s)
      ∨ (∃ p, s.tokenPromise = some p ∧ s.callers[i]? = some CallerState.ready
          ∧ invokeStep s i now net
              = { s with callers := s.callers.set i (CallerState.attached p.pid) })
      ∨ (∃ t, s.token = some t ∧ s.callers[i]? = some CallerState.ready
          ∧ invokeStep s i now net
              = { s with callers :=
                    s.callers.set i (CallerState.done (Except.ok t.accessToken)) })
      ∨ (s.tokenPromise = none ∧ s.callers[i]? = some CallerState.ready
          ∧ invokeStep s i now net = startRefresh s i net) := by
  by_cases hc : s.callers[i]? = some CallerState.ready
  · rcases Option.eq_none_or_eq_some s.tokenPromise with hp | ⟨p, hp⟩
    · rcases Option.eq_none_or_eq_some s.token with ht | ⟨t, ht⟩
      · exact Or.inr (Or.inr (Or.inr
          ⟨hp, hc, invokeStep_refresh_of_none s i now net hc hp ht⟩))
      · by_cases hv : now + 60000 < t.expiresAt
        · exact Or.inr (Or.inr (Or.inl
            ⟨t, ht, hc, invokeStep_cache_hit s i now net t hc hp ht hv⟩))
        · exact Or.inr (Or.inr (Or.inr
            ⟨hp, hc, invokeStep_refresh_of_stale s i now net t hc hp ht hv⟩))
    · exact Or.inr (Or.inl ⟨p, hp, hc, invokeStep_attach s i now net p hc hp⟩)
  · exact Or.inl ⟨hc, invokeStep_not_ready s i now net hc⟩

/-- Case analysis for `startRefresh`. -/
theorem startRefresh_cases (s : Sys) (i : Nat) (net : Except Unit TokenResponse) :
    (∃ g, buildRequestBody s.token s.config = Except.ok g
        ∧ startRefresh s i net
            = { s with
                tokenPromise :=
                  some ⟨s.nextPid, net.mapError fun _ => TokenError.authError⟩,
                nextPid := s.nextPid + 1,
                netCalls := s.netCalls + 1,
                callers := s.callers.set i (CallerState.owner s.nextPid) })
      ∨ (∃ e, buildRequestBody s.token s.config = Except.error e
          ∧ startRefresh s i net
              = { s with
                  tokenPromise := some ⟨s.nextPid, Except.error e⟩,
                  nextPid := s.nextPid + 1,
                  callers := s.callers.set i (CallerState.owner s.nextPid) }) := by
  cases hb : buildRequestBody s.token s.config with
  | ok g => exact Or.inl ⟨g, rfl, startRefresh_of_ok s i net g hb⟩
  | error e => exact Or.inr ⟨e, rfl, startRefresh_of_error s i net e hb⟩

/-- Case analysis for `settleStep`. -/
theorem settleStep_cases (s : Sys) (now : Int) :
    settleStep s now = s
      ∨ (∃ p resp, s.tokenPromise = some p ∧ p.outcome = Except.ok resp
          ∧ settleStep s now
              = { s with
                  token := some (mkToken resp s.token s.config now),
                  tokenPromise := none,
                  callers := s.callers.map (completeCaller p.pid
                    (Except.ok (mkToken resp s.token s.config now).accessToken)) })
      ∨ (∃ p e, s.tokenPromise = some p ∧ p.outcome = Except.error e
          ∧ settleStep s now
              = { s with
                  tokenPromise := none,
                  callers := s.callers.map (completeCaller p.pid (Except.error e)) }) := by
  rcases Option.eq_none_or_eq_some s.tokenPromise with hp | ⟨p, hp⟩
  · exact Or.inl (settleStep_none s now hp)
  · cases ho : p.outcome with
    | ok resp => exact Or.inr (Or.inl ⟨p, resp, hp, ho, settleStep_ok s now p resp hp ho⟩)
    | error e => exact Or.inr (Or.inr ⟨p, e, hp, ho, settleStep_error s now p e hp ho⟩)

/-- One event-loop step never changes the configuration. -/
theorem applyEvent_config (s : Sys) (e : Event) :
    (applyEvent s e).config = s.config := by
  cases e with
  | invoke i now net =>
    show (invokeStep s i now net).config = s.config
    rcases invokeStep_cases s i now net with ⟨_, h⟩ | ⟨p, _, _, h⟩ | ⟨t, _, _, h⟩ |
      ⟨_, _, h⟩ <;> rw [h]
    rcases startRefresh_cases s i net with ⟨g, _, h2⟩ | ⟨e2, _, h2⟩ <;> rw [h2]
  | settle now =>
    show (settleStep s now).config = s.config
    rcases settleStep_cases s now with h | ⟨p, resp, _, _, h⟩ | ⟨p, e2, _, _, h⟩ <;> rw [h]

/-- A caller that is not `ready` is untouched by any invocation step. -/
theorem invokeStep_of_ne_ready (s : Sys) (i j : Nat) (now : Int)
    (net : Except Unit TokenResponse)
    (hj : s.callers[j]? ≠ some CallerState.ready) :
    (invokeStep s i now net).callers[j]? = s.callers[j]? := by
  have hij : s.callers[i]? = some CallerState.ready → i ≠ j := by
    rintro hc rfl; exact hj hc
  rcases invokeStep_cases s i now net with ⟨_, h⟩ | ⟨p, _, hc, h⟩ | ⟨t, _, hc, h⟩ |
    ⟨_, hc, h⟩
  · rw [h]
  · rw [h]; exact List.getElem?_set_ne (hij hc)
  · rw [h]; exact List.getElem?_set_ne (hij hc)
  · rw [h]
    rcases startRefresh_cases s i net with ⟨g, _, h2⟩ | ⟨e2, _, h2⟩ <;> rw [h2] <;>
      exact List.getElem?_set_ne (hij hc)

/-- A `ready` caller that runs its `getToken` prefix is never `ready`
afterwards: it finishes on the cache hit, or awaits a promise. -/
theorem invokeStep_self_not_ready (s : Sys) (i : Nat) (now : Int)
    (net : Except Unit TokenResponse)
    (hc : s.callers[i]? = some CallerState.ready) :
    (invokeStep s i now net).callers[i]? ≠ some CallerState.ready := by
  have hilen : i < s.callers.length := (List.getElem?_eq_some_iff.mp hc).1
  rcases invokeStep_cases s i now net with ⟨hn, _⟩ | ⟨p, _, _, h⟩ | ⟨t, _, _, h⟩ |
    ⟨_, _, h⟩
  · exact absurd hc hn
  · rw [h]; simp [List.getElem?_set_self hilen]
  · rw [h]; simp [List.getElem?_set_self hilen]
  · rw [h]
    rcases startRefresh_cases s i net with ⟨g, _, h2⟩ | ⟨e2, _, h2⟩ <;> rw [h2] <;>
      simp [List.getElem?_set_self hilen]

/-! ## Trace lemmas -/

/-- The configuration is unchanged by any run of the event loop. -/
theorem applyEvents_config (s : Sys) (evs : List Event) :
    (applyEvents s evs).config = s.config := by
  induction evs generalizing s with
  | nil => rfl
  | cons e evs ih =>
    show (applyEvents (applyEvent s e) evs).config = s.config
    rw [ih (applyEvent s e), applyEvent_config]

/-- An invocation during a refresh epoch preserves the epoch: the arriving
caller attaches to the in-flight promise instead of starting anything. -/
theorem refreshEpoch_invoke (n : Nat) (p : Pending) (s : Sys) (i : Nat) (now : Int)
    (net : Except Unit TokenResponse) (h : RefreshEpoch n p s) :
    RefreshEpoch n p (invokeStep s i now net) := by
  rcases invokeStep_cases s i now net with ⟨_, he⟩ | ⟨q, hq, hc, he⟩ | ⟨t, ht, hc, he⟩ |
    ⟨hp, hc, he⟩
  · rw [he]; exact h
  · have hqp : q = p := by
      rw [h.inflight] at hq
      exact (Option.some_inj.mp hq).symm
    subst hqp
    refine ⟨?_, ?_, ?_, ?_, ?_⟩ <;> rw [he]
    · exact h.inflight
    · exact h.calls
    · exact h.tok
    · simpa using h.len
    · intro c hcmem
      rcases List.mem_or_eq_of_mem_set hcmem with hm | rfl
      · exact h.good c hm
      · exact Or.inr (Or.inl rfl)
  · rw [h.tok] at ht
    exact absurd ht (by simp)
  · rw [h.inflight] at hp
    exact absurd hp (by simp)

/-- A refresh epoch persists across any run of invocations: a second
refresh never starts while the first is outstanding, and no further
network call is made. -/
theorem refreshEpoch_run (n : Nat) (p : Pending) (s : Sys) (evs : List Event)
    (hinv : ∀ e ∈ evs, e.isInvoke = true) (h : RefreshEpoch n p s) :
    RefreshEpoch n p (applyEvents s evs) := by
  induction evs generalizing s with
  | nil => exact h
  | cons e evs ih =>
    show RefreshEpoch n p (applyEvents (applyEvent s e) evs)
    refine ih (applyEvent s e) (fun e2 he2 => hinv e2 (List.mem_cons_of_mem _ he2)) ?_
    cases e with
    | invoke i now net => exact refreshEpoch_invoke n p s i now net h
    | settle now =>
      exact absurd (hinv _ (List.mem_cons_self _ _)) (by simp [Event.isInvoke])

/-- Once a caller is no longer `ready`, a run of invocations leaves it
untouched. -/
theorem nonready_run (s : Sys) (evs : List Event) (j : Nat)
    (hinv : ∀ e ∈ evs, e.isInvoke = true)
    (hj : s.callers[j]? ≠ some CallerState.ready) :
    (applyEvents s evs).callers[j]? = s.callers[j]? := by
  induction evs generalizing s with
  | nil => rfl
  | cons e evs ih =>
    show (applyEvents (applyEvent s e) evs).callers[j]? = s.callers[j]?
    cases e with
    | invoke i now net =>
      have h1 : (invokeStep s i now net).callers[j]? = s.callers[j]? :=
        invokeStep_of_ne_ready s i j now net hj
      have h2 := ih (invokeStep s i now net)
        (fun e2 he2 => hinv e2 (List.mem_cons_of_mem _ he2))
        (by rw [h1]; exact hj)
      exact h2.trans h1
    | settle now =>
      exact absurd (hinv _ (List.mem_cons_self _ _)) (by simp [Event.isInvoke])

/-- After a run of invocations that invokes caller `j` at least once (or
starts with it already past `ready`), caller `j` is no longer `ready`. -/
theorem invoked_not_ready (s : Sys) (evs : List Event) (j : Nat)
    (hinv : ∀ e ∈ evs, e.isInvoke = true)
    (hj : (∃ now net, Event.invoke j now net ∈ evs)
        ∨ s.callers[j]? ≠ some CallerState.ready) :
    (applyEvents s evs).callers[j]? ≠ some CallerState.ready := by
  induction evs generalizing s with
  | nil =>
    rcases hj with ⟨now, net, hmem⟩ | hj
    · exact absurd hmem (List.not_mem_nil _)
    · exact hj
  | cons e evs ih =>
    show (applyEvents (applyEvent s e) evs).callers[j]? ≠ some CallerState.ready
    refine ih (applyEvent s e) (fun e2 he2 => hinv e2 (List.mem_cons_of_mem _ he2)) ?_
    rcases hj with ⟨now, net, hmem⟩ | hj
    · rcases List.mem_cons.mp hmem with heq | hmem2
      · by_cases hr : s.callers[j]? = some CallerState.ready
        · refine Or.inr ?_
          rw [← heq]
          exact invokeStep_self_not_ready s j now net hr
        · refine Or.inr ?_
          rw [← heq]
          show (invokeStep s j now net).callers[j]? ≠ some CallerState.ready
          rw [invokeStep_of_ne_ready s j j now net hr]
          exact hr
      · exact Or.inl ⟨now, net, hmem2⟩
    · refine Or.inr ?_
      cases e with
      | invoke i now2 net2 =>
        show (invokeStep s i now2 net2).callers[j]? ≠ some CallerState.ready
        rw [invokeStep_of_ne_ready s i j now2 net2 hj]
        exact hj
      | settle now2 =>
        exact absurd (hinv _ (List.mem_cons_self _ _)) (by simp [Event.isInvoke])

/-- The first invocation from a fresh client with usable credentials
starts the unique refresh synchronously: one network call, promise id 0
installed before any suspension, the invoker owning it. -/
theorem refreshEpoch_start (config : RedditAuthConfig) (n i0 : Nat) (t0 : Int)
    (net : Except Unit TokenResponse) (g : GrantBody)
    (hcred : buildRequestBody none config = Except.ok g)
    (hi0 : i0 < n) :
    invokeStep (initSys config n) i0 t0 net
      = { initSys config n with
          tokenPromise := some ⟨0, net.mapError fun _ => TokenError.authError⟩,
          nextPid := 1,
          netCalls := 1,
          callers := (List.replicate n CallerState.ready).set i0 (CallerState.owner 0) } := by
  have hc : (initSys config n).callers[i0]? = some CallerState.ready := by
    show (List.replicate n CallerState.ready)[i0]? = some CallerState.ready
    exact List.getElem?_replicate_of_lt hi0
  rw [invokeStep_refresh_of_none (initSys config n) i0 t0 net hc rfl rfl,
    startRefresh_of_ok _ _ _ g hcred]
  rfl

/-- The state reached by that first invocation is a refresh epoch. -/
theorem refreshEpoch_after_start (config : RedditAuthConfig) (n i0 : Nat) (t0 : Int)
    (net : Except Unit TokenResponse) (g : GrantBody)
    (hcred : buildRequestBody none config = Except.ok g)
    (hi0 : i0 < n) :
    RefreshEpoch n ⟨0, net.mapError fun _ => TokenError.authError⟩
      (invokeStep (initSys config n) i0 t0 net) := by
  rw [refreshEpoch_start config n i0 t0 net g hcred hi0]
  refine ⟨rfl, rfl, rfl, by simp, ?_⟩
  intro c hc
  rcases List.mem_or_eq_of_mem_set hc with hm | rfl
  · exact Or.inl (List.eq_of_mem_replicate hm)
  · exact Or.inr (Or.inr rfl)

/-! ## Grant-selection lemmas -/

/-- With no refresh token configured and no full username/password pair,
grant selection from an empty cache throws the configuration error before
any network call. -/
theorem buildRequestBody_none_error (config : RedditAuthConfig)
    (hrt : config.refreshToken = none)
    (hup : config.username = none ∨ config.password = none) :
    buildRequestBody none config
      = Except.error (TokenError.configurationError
          "Either refreshToken or username/password must be provided") := by
  rcases hup with h | h <;> simp [buildRequestBody, jsOr, jsTruthy, hrt, h]

/-- When the combined `this.token?.refreshToken || this.config.refreshToken`
is a truthy refresh token, grant selection picks the refresh-token grant
with exactly that token. -/
theorem buildRequestBody_refresh (token : Option RedditToken)
    (config : RedditAuthConfig) (rt : String)
    (hknown : jsOr (token.bind RedditToken.refreshToken) config.refreshToken = some rt)
    (hrt : rt ≠ "") :
    buildRequestBody token config = Except.ok (GrantBody.refreshTokenGrant rt) := by
  unfold buildRequestBody
  rw [hknown]
  simp [jsTruthy, jsOrStr, hrt]

/-! ## The claims -/

/-- C2: a cached token whose `expiresAt` exceeds the current time plus 60
seconds is returned as-is by `getToken`: the caller finishes at once with
that token's access token, the step performs zero network calls, and the
manager state is otherwise untouched. (The quiescent hypothesis
`tokenPromise = none` states that no refresh is in flight: line 51 of the
source consults the in-flight handle before the cache.) -/
theorem C2_fresh_token_cache_hit (s : Sys) (i : Nat) (now : Int)
    (net : Except Unit TokenResponse) (t : RedditToken)
    (hq : s.tokenPromise = none)
    (ht : s.token = some t)
    (hready : s.callers[i]? = some CallerState.ready)
    (hfresh : t.expiresAt > now + 60000) :
    invokeStep s i now net
        = { s with callers :=
              s.callers.set i (CallerState.done (Except.ok t.accessToken)) }
      ∧ (invokeStep s i now net).netCalls = s.netCalls
      ∧ (invokeStep s i now net).token = s.token
      ∧ (invokeStep s i now net).tokenPromise = none := by
  have h := invokeStep_cache_hit s i now net t hready hq ht hfresh
  exact ⟨h, by rw [h], by rw [h], by rw [h]; exact hq⟩

/-- Witness for C2: the fresh fixture token is served from cache. -/
theorem C2_fresh_token_cache_hit_witness :
    invokeStep freshStart 0 5000 (Except.error ())
        = { freshStart with callers :=
              freshStart.callers.set 0 (CallerState.done (Except.ok freshTok.accessToken)) }
      ∧ (invokeStep freshStart 0 5000 (Except.error ())).netCalls = freshStart.netCalls
      ∧ (invokeStep freshStart 0 5000 (Except.error ())).token = freshStart.token
      ∧ (invokeStep freshStart 0 5000 (Except.error ())).tokenPromise = none :=
  C2_fresh_token_cache_hit freshStart 0 5000 (Except.error ()) freshTok rfl rfl rfl
    (by decide)

/-- C4: a manager with no refresh token and no username/password pair,
and nothing cached, fails `getToken` with the configuration error and
performs zero network calls. -/
theorem C4_no_credentials_config_error (config : RedditAuthConfig) (n i : Nat)
    (t0 t1 : Int) (net : Except Unit TokenResponse)
    (hrt : config.refreshToken = none)
    (hup : config.username = none ∨ config.password = none)
    (hi : i < n) :
    ((applyEvents (initSys config n) [Event.invoke i t0 net, Event.settle t1]).callers[i]?
        = some (CallerState.done (Except.error (TokenError.configurationError
            "Either refreshToken or username/password must be provided"))))
      ∧ (applyEvents (initSys config n)
          [Event.invoke i t0 net, Event.settle t1]).netCalls = 0 := by
  have hb := buildRequestBody_none_error config hrt hup
  have hc : (initSys config n).callers[i]? = some CallerState.ready := by
    show (List.replicate n CallerState.ready)[i]? = some CallerState.ready
    exact List.getElem?_replicate_of_lt hi
  have hstep : applyEvents (initSys config n) [Event.invoke i t0 net, Event.settle t1]
      = settleStep (invokeStep (initSys config n) i t0 net) t1 := rfl
  rw [hstep, invokeStep_refresh_of_none (initSys config n) i t0 net hc rfl rfl,
    startRefresh_of_error _ _ _ _ hb, settleStep_error _ t1 _ _ rfl rfl]
  constructor
  · rw [List.getElem?_map, List.getElem?_set_self (by simpa [initSys] using hi)]
    rfl
  · rfl

/-- Witness for C4 at the credential-free fixture configuration. -/
theorem C4_no_credentials_config_error_witness :
    ((applyEvents (initSys emptyConfig 1)
        [Event.invoke 0 0 (Except.error ()), Event.settle 1]).callers[0]?
        = some (CallerState.done (Except.error (TokenError.configurationError
            "Either refreshToken or username/password must be provided"))))
      ∧ (applyEvents (initSys emptyConfig 1)
          [Event.invoke 0 0 (Except.error ()), Event.settle 1]).netCalls = 0 :=
  C4_no_credentials_config_error emptyConfig 1 0 0 1 (Except.error ()) rfl (Or.inl rfl)
    (by decide)

/-- C5: whenever a refresh token is known (from the cached token or the
configuration) the refresh request body uses `grant_type=refresh_token`
with that token — never `grant_type=password` — even when username and
password are also configured. -/
theorem C5_grant_precedence (token : Option RedditToken)
    (config : RedditAuthConfig) (rt u p : String)
    (hknown : jsOr (token.bind RedditToken.refreshToken) config.refreshToken = some rt)
    (hrt : rt ≠ "")
    (hu : config.username = some u)
    (hp : config.password = some p) :
    buildRequestBody token config = Except.ok (GrantBody.refreshTokenGrant rt)
      ∧ (∀ u2 p2, buildRequestBody token config
          ≠ Except.ok (GrantBody.passwordGrant u2 p2))
      ∧ ("grant_type", "refresh_token") ∈ (GrantBody.refreshTokenGrant rt).formData
      ∧ ("refresh_token", rt) ∈ (GrantBody.refreshTokenGrant rt).formData := by
  have hmain := buildRequestBody_refresh token config rt hknown hrt
  refine ⟨hmain, ?_, ?_, ?_⟩
  · intro u2 p2
    rw [hmain]
    intro hcontra
    exact absurd (Except.ok.inj hcontra) (by simp)
  · simp [GrantBody.formData]
  · simp [GrantBody.formData]

/-- Witness for C5 at the fixture configuration that has both a refresh
token and username/password. -/
theorem C5_grant_precedence_witness :
    buildRequestBody none fullConfig = Except.ok (GrantBody.refreshTokenGrant "RT0")
      ∧ (∀ u2 p2, buildRequestBody none fullConfig
          ≠ Except.ok (GrantBody.passwordGrant u2 p2))
      ∧ ("grant_type", "refresh_token") ∈ (GrantBody.refreshTokenGrant "RT0").formData
      ∧ ("refresh_token", "RT0") ∈ (GrantBody.refreshTokenGrant "RT0").formData :=
  C5_grant_precedence none fullConfig "RT0" "user" "pass" rfl (by decide) rfl rfl

/-- C6: when a successful refresh response omits `refresh_token`, the
previously known refresh token (cached or configured) is carried into the
new token, and the manager's next grant selection still uses it. -/
theorem C6_refresh_token_carryover (s : Sys) (p : Pending) (resp : TokenResponse)
    (now : Int) (rt : String)
    (hin : s.tokenPromise = some p)
    (hout : p.outcome = Except.ok resp)
    (homit : resp.refresh_token = none)
    (hprev : jsOr (s.token.bind RedditToken.refreshToken) s.config.refreshToken = some rt)
    (hrt : rt ≠ "") :
    (settleStep s now).token = some (mkToken resp s.token s.config now)
      ∧ (mkToken resp s.token s.config now).refreshToken = some rt
      ∧ buildRequestBody (settleStep s now).token (settleStep s now).config
          = Except.ok (GrantBody.refreshTokenGrant rt) := by
  have hset := settleStep_ok s now p resp hin hout
  have htok : (settleStep s now).token = some (mkToken resp s.token s.config now) := by
    rw [hset]
  have hcfg : (settleStep s now).config = s.config := by rw [hset]
  have hcarry : (mkToken resp s.token s.config now).refreshToken = some rt := by
    show jsOr (jsOr resp.refresh_token (s.token.bind RedditToken.refreshToken))
      s.config.refreshToken = some rt
    rw [homit]
    exact hprev
  refine ⟨htok, hcarry, ?_⟩
  rw [htok, hcfg]
  refine buildRequestBody_refresh _ s.config rt ?_ hrt
  have hbind : (some (mkToken resp s.token s.config now)).bind RedditToken.refreshToken
      = some rt := hcarry
  rw [jsOr, hbind]
  simp [jsTruthy, hrt]

/-- Witness for C6: a pending refresh over the refresh-token fixture
configuration whose response omits `refresh_token`. -/
theorem C6_refresh_token_carryover_witness :
    (settleStep failingSysOk 9).token = some (mkToken plainResp none rtConfig 9)
      ∧ (mkToken plainResp none rtConfig 9).refreshToken = some "RT0"
      ∧ buildRequestBody (settleStep failingSysOk 9).token (settleStep failingSysOk 9).config
          = Except.ok (GrantBody.refreshTokenGrant "RT0") :=
  C6_refresh_token_carryover failingSysOk ⟨0, Except.ok plainResp⟩ plainResp 9 "RT0"
    rfl rfl rfl rfl (by decide)

/-- C7: the expiry of every token constructed from a successful refresh is
the processing time plus the response's `expires_in`, converted from
seconds to the millisecond clock. -/
theorem C7_expiry_stamp (resp : TokenResponse) (prev : Option RedditToken)
    (config : RedditAuthConfig) (now : Int) :
    (mkToken resp prev config now).expiresAt = now + resp.expires_in * 1000 := rfl

/-- C8: a failure of token acquisition is propagated unchanged by the
authorized request operation; with a token, the request is issued against
the resource host with the bearer header and configured user agent, and
the transport's outcome is propagated as-is. -/
theorem C8_request_propagation {E A R : Type} (config : RedditAuthConfig)
    (transport : ApiClient → String → R → Except E A) (url : String) (options : R)
    (e : TokenError) (tok : String) :
    request config (Except.error e) transport url options = Except.error (Sum.inl e)
      ∧ getApiClient config (Except.ok tok)
          = Except.ok { baseURL := "https://oauth.reddit.com",
                        authorization := "Bearer " ++ tok,
                        userAgent := config.userAgent }
      ∧ request config (Except.ok tok) transport url options
          = (transport { baseURL := "https://oauth.reddit.com",
                         authorization := "Bearer " ++ tok,
                         userAgent := config.userAgent } url options).mapError Sum.inr := by
  refine ⟨rfl, rfl, ?_⟩
  have hcl : getApiClient config (Except.ok tok)
      = Except.ok ⟨"https://oauth.reddit.com", "Bearer " ++ tok, config.userAgent⟩ := rfl
  unfold request
  rw [hcl]
  cases htr : transport ⟨"https://oauth.reddit.com", "Bearer " ++ tok,
      config.userAgent⟩ url options <;> simp [htr, Except.mapError]

/-- C9: no operation of the model ever mutates the configuration supplied
at construction: over every run of the event loop, every configuration
field is unchanged. -/
theorem C9_config_immutable (s : Sys) (evs : List Event) :
    (applyEvents s evs).config = s.config
      ∧ (applyEvents s evs).config.clientId = s.config.clientId
      ∧ (applyEvents s evs).config.clientSecret = s.config.clientSecret
      ∧ (applyEvents s evs).config.username = s.config.username
      ∧ (applyEvents s evs).config.password = s.config.password
      ∧ (applyEvents s evs).config.userAgent = s.config.userAgent
      ∧ (applyEvents s evs).config.refreshToken = s.config.refreshToken := by
  have h := applyEvents_config s evs
  exact ⟨h, by rw [h], by rw [h], by rw [h], by rw [h], by rw [h], by rw [h]⟩

/-- C10: when the cached token carries a refresh token and the
configuration also holds one, the refresh request uses the cached one. -/
theorem C10_cached_refresh_token_wins (t : RedditToken) (config : RedditAuthConfig)
    (rt rc : String)
    (htok : t.refreshToken = some rt)
    (hrt : rt ≠ "")
    (hcfg : config.refreshToken = some rc) :
    buildRequestBody (some t) config = Except.ok (GrantBody.refreshTokenGrant rt) := by
  refine buildRequestBody_refresh (some t) config rt ?_ hrt
  show jsOr (t.refreshToken) config.refreshToken = some rt
  rw [htok]
  simp [jsOr, jsTruthy, hrt]

/-- Witness for C10: the stale fixture token's `RTC` wins over the
configured `RT0`. -/
theorem C10_cached_refresh_token_wins_witness :
    buildRequestBody (some staleTok) rtConfig
      = Except.ok (GrantBody.refreshTokenGrant "RTC") :=
  C10_cached_refresh_token_wins staleTok rtConfig "RTC" "RT0" rfl (by decide) rfl

/-- C1: N concurrent `getToken` calls from a fresh client with usable
credentials. The first invocation starts the one refresh, installing the
in-flight handle before suspending; every invocation arriving while it is
outstanding attaches to that same handle — across every prefix of the
arrivals the handle is unchanged and the network-call count stays 1 — and
when the refresh settles, every caller resolves to the same access token
of that single network call. -/
theorem C1_concurrent_dedup (config : RedditAuthConfig) (n i0 : Nat)
    (t0 t1 : Int) (resp : TokenResponse) (rest : List Event) (g : GrantBody)
    (hcred : buildRequestBody none config = Except.ok g)
    (hi0 : i0 < n)
    (hrest : ∀ e ∈ rest, e.isInvoke = true)
    (hall : ∀ j, j < n → j = i0 ∨ ∃ now net, Event.invoke j now net ∈ rest) :
    (applyEvents (initSys config n)
        (Event.invoke i0 t0 (Except.ok resp) :: rest)).netCalls = 1
      ∧ (applyEvents (initSys config n)
          (Event.invoke i0 t0 (Except.ok resp) :: rest)).tokenPromise
          = some ⟨0, Except.ok resp⟩
      ∧ (∀ l1 l2, rest = l1 ++ l2 →
          (applyEvents (initSys config n)
              (Event.invoke i0 t0 (Except.ok resp) :: l1)).netCalls = 1
            ∧ (applyEvents (initSys config n)
                (Event.invoke i0 t0 (Except.ok resp) :: l1)).tokenPromise
                = some ⟨0, Except.ok resp⟩)
      ∧ (∀ j, j < n →
          (applyEvents (initSys config n)
              ((Event.invoke i0 t0 (Except.ok resp) :: rest) ++ [Event.settle t1])).callers[j]?
            = some (CallerState.done (Except.ok resp.access_token))) := by
  have hp0 : RefreshEpoch n ⟨0, Except.ok resp⟩
      (invokeStep (initSys config n) i0 t0 (Except.ok resp)) :=
    refreshEpoch_after_start config n i0 t0 (Except.ok resp) g hcred hi0
  have hepoch : ∀ l1 l2, rest = l1 ++ l2 →
      RefreshEpoch n ⟨0, Except.ok resp⟩
        (applyEvents (initSys config n) (Event.invoke i0 t0 (Except.ok resp) :: l1)) := by
    intro l1 l2 hsplit
    have hinv1 : ∀ e ∈ l1, e.isInvoke = true := fun e he =>
      hrest e (hsplit ▸ List.mem_append_left l2 he)
    show RefreshEpoch n _
      (applyEvents (invokeStep (initSys config n) i0 t0 (Except.ok resp)) l1)
    exact refreshEpoch_run n _ _ l1 hinv1 hp0
  have hfull : RefreshEpoch n ⟨0, Except.ok resp⟩
      (applyEvents (initSys config n) (Event.invoke i0 t0 (Except.ok resp) :: rest)) :=
    hepoch rest [] (List.append_nil rest).symm
  refine ⟨hfull.calls, hfull.inflight,
    fun l1 l2 hsplit => ⟨(hepoch l1 l2 hsplit).calls, (hepoch l1 l2 hsplit).inflight⟩, ?_⟩
  intro j hj
  have happ : applyEvents (initSys config n)
      ((Event.invoke i0 t0 (Except.ok resp) :: rest) ++ [Event.settle t1])
      = settleStep
          (applyEvents (initSys config n) (Event.invoke i0 t0 (Except.ok resp) :: rest))
          t1 := by
    show List.foldl applyEvent _ _ = _
    rw [List.foldl_append]
    rfl
  have hjne : (applyEvents (initSys config n)
      (Event.invoke i0 t0 (Except.ok resp) :: rest)).callers[j]?
      ≠ some CallerState.ready := by
    show (applyEvents (invokeStep (initSys config n) i0 t0 (Except.ok resp))
      rest).callers[j]? ≠ some CallerState.ready
    refine invoked_not_ready _ rest j hrest ?_
    rcases hall j hj with rfl | hmem
    · refine Or.inr ?_
      rw [refreshEpoch_start config n j t0 (Except.ok resp) g hcred hj]
      show (((List.replicate n CallerState.ready).set j
        (CallerState.owner 0)))[j]? ≠ some CallerState.ready
      rw [List.getElem?_set_self (by simpa using hj)]
      simp
    · exact Or.inl hmem
  have hsettle := settleStep_ok
    (applyEvents (initSys config n) (Event.invoke i0 t0 (Except.ok resp) :: rest)) t1
    ⟨0, Except.ok resp⟩ resp hfull.inflight rfl
  rw [happ, hsettle]
  show ((applyEvents (initSys config n)
    (Event.invoke i0 t0 (Except.ok resp) :: rest)).callers.map _)[j]? = _
  rw [List.getElem?_map]
  cases hcj : (applyEvents (initSys config n)
      (Event.invoke i0 t0 (Except.ok resp) :: rest)).callers[j]? with
  | none =>
    have hlen : j < (applyEvents (initSys config n)
        (Event.invoke i0 t0 (Except.ok resp) :: rest)).callers.length := by
      rw [hfull.len]
      exact hj
    rw [List.getElem?_eq_getElem hlen] at hcj
    exact absurd hcj (by simp)
  | some c =>
    have hgood := hfull.good c (List.getElem?_mem hcj)
    rcases hgood with rfl | rfl | rfl
    · exact absurd hcj hjne
    · rfl
    · rfl

/-- Witness for C1: two callers, one refresh, both resolve to `AT1` with a
single network call. -/
theorem C1_concurrent_dedup_witness :
    (applyEvents (initSys fullConfig 2)
        (Event.invoke 0 0 (Except.ok plainResp)
          :: [Event.invoke 1 3 (Except.error ())])).netCalls = 1
      ∧ (applyEvents (initSys fullConfig 2)
          (Event.invoke 0 0 (Except.ok plainResp)
            :: [Event.invoke 1 3 (Except.error ())])).tokenPromise
          = some ⟨0, Except.ok plainResp⟩
      ∧ (∀ l1 l2, [Event.invoke 1 3 (Except.error ())] = l1 ++ l2 →
          (applyEvents (initSys fullConfig 2)
              (Event.invoke 0 0 (Except.ok plainResp) :: l1)).netCalls = 1
            ∧ (applyEvents (initSys fullConfig 2)
                (Event.invoke 0 0 (Except.ok plainResp) :: l1)).tokenPromise
                = some ⟨0, Except.ok plainResp⟩)
      ∧ (∀ j, j < 2 →
          (applyEvents (initSys fullConfig 2)
              ((Event.invoke 0 0 (Except.ok plainResp)
                :: [Event.invoke 1 3 (Except.error ())]) ++ [Event.settle 9])).callers[j]?
            = some (CallerState.done (Except.ok plainResp.access_token))) :=
  C1_concurrent_dedup fullConfig 2 0 0 9 plainResp [Event.invoke 1 3 (Except.error ())]
    (GrantBody.refreshTokenGrant "RT0") rfl (by decide)
    (by simp [Event.isInvoke])
    (fun j hj => by
      interval_cases j
      · exact Or.inl rfl
      · exact Or.inr ⟨3, Except.error (), List.mem_singleton.mpr rfl⟩)

/-- C3 counterexample: a refresh started while a stale token was cached
fails; both callers receive the same failure and the in-flight handle is
cleared, yet the stale token is still cached afterwards — the manager's
state does not revert to "no cached token". -/
theorem C3_failed_refresh_keeps_stale_token :
    staleFailedRun.callers
        = [CallerState.done (Except.error TokenError.authError),
           CallerState.done (Except.error TokenError.authError)]
      ∧ staleFailedRun.tokenPromise = none
      ∧ staleFailedRun.token = some staleTok
      ∧ staleFailedRun.token ≠ none := by decide

/-- C3 (amended): when a refresh fails, every caller awaiting the shared
in-flight promise receives that same failure, the handle is cleared, and
the cached token field is left unchanged — so no valid token is cached —
and the next `getToken` invocation attempts a fresh refresh: it makes a
new network call and installs a new in-flight handle (no poison-state
lockout). -/
theorem C3_failure_recovery (s : Sys) (p : Pending) (e : TokenError)
    (k i : Nat) (c : CallerState) (now t1 : Int)
    (net2 : Except Unit TokenResponse) (g : GrantBody)
    (hin : s.tokenPromise = some p)
    (hout : p.outcome = Except.error e)
    (hk : s.callers[k]? = some c)
    (hc : c = CallerState.attached p.pid ∨ c = CallerState.owner p.pid)
    (hready : s.callers[i]? = some CallerState.ready)
    (hstale : isTokenValid s.token t1 = false)
    (hcred : buildRequestBody s.token s.config = Except.ok g) :
    (settleStep s now).callers[k]? = some (CallerState.done (Except.error e))
      ∧ (settleStep s now).tokenPromise = none
      ∧ (settleStep s now).token = s.token
      ∧ (settleStep s now).netCalls = s.netCalls
      ∧ (invokeStep (settleStep s now) i t1 net2).netCalls = s.netCalls + 1
      ∧ (invokeStep (settleStep s now) i t1 net2).tokenPromise
          = some ⟨s.nextPid, net2.mapError fun _ => TokenError.authError⟩ := by
  have hset := settleStep_error s now p e hin hout
  have h2 : (settleStep s now).tokenPromise = none := by rw [hset]
  have h3 : (settleStep s now).token = s.token := by rw [hset]
  have h4 : (settleStep s now).netCalls = s.netCalls := by rw [hset]
  have h1 : (settleStep s now).callers[k]? = some (CallerState.done (Except.error e)) := by
    rw [hset]
    show (s.callers.map (completeCaller p.pid (Except.error e)))[k]? = _
    rw [List.getElem?_map, hk]
    rcases hc with rfl | rfl <;> simp [completeCaller]
  have hiready : (settleStep s now).callers[i]? = some CallerState.ready := by
    rw [hset]
    show (s.callers.map (completeCaller p.pid (Except.error e)))[i]? = _
    rw [List.getElem?_map, hready]
    rfl
  have hrefresh : invokeStep (settleStep s now) i t1 net2
      = startRefresh (settleStep s now) i net2 := by
    rcases Option.eq_none_or_eq_some s.token with htok | ⟨t, htok⟩
    · exact invokeStep_refresh_of_none _ i t1 net2 hiready h2 (by rw [h3, htok])
    · refine invokeStep_refresh_of_stale _ i t1 net2 t hiready h2 (by rw [h3, htok]) ?_
      rw [htok] at hstale
      simpa [isTokenValid] using hstale
  have hscfg : (settleStep s now).config = s.config := by rw [hset]
  have hsnext : (settleStep s now).nextPid = s.nextPid := by rw [hset]
  have hcred2 : buildRequestBody (settleStep s now).token (settleStep s now).config
      = Except.ok g := by
    rw [h3, hscfg]
    exact hcred
  have hsr := startRefresh_of_ok (settleStep s now) i net2 g hcred2
  have h5 : (invokeStep (settleStep s now) i t1 net2).netCalls = s.netCalls + 1 := by
    rw [hrefresh, hsr]
    show (settleStep s now).netCalls + 1 = s.netCalls + 1
    rw [h4]
  have h6 : (invokeStep (settleStep s now) i t1 net2).tokenPromise
      = some ⟨s.nextPid, net2.mapError fun _ => TokenError.authError⟩ := by
    rw [hrefresh, hsr, hsnext]
  exact ⟨h1, h2, h3, h4, h5, h6⟩

/-- Witness for C3 (amended) at the failing-refresh fixture: the attached
caller gets the failure, the stale token stays, and the ready caller's
retry makes a second network call. -/
theorem C3_failure_recovery_witness :
    (settleStep failingSys 5).callers[1]?
        = some (CallerState.done (Except.error TokenError.authError))
      ∧ (settleStep failingSys 5).tokenPromise = none
      ∧ (settleStep failingSys 5).token = failingSys.token
      ∧ (settleStep failingSys 5).netCalls = failingSys.netCalls
      ∧ (invokeStep (settleStep failingSys 5) 2 200000 (Except.error ())).netCalls
          = failingSys.netCalls + 1
      ∧ (invokeStep (settleStep failingSys 5) 2 200000 (Except.error ())).tokenPromise
          = some ⟨failingSys.nextPid,
              (Except.error () : Except Unit TokenResponse).mapError
                fun _ => TokenError.authError⟩ :=
  C3_failure_recovery failingSys ⟨0, Except.error TokenError.authError⟩
    TokenError.authError 1 2 (CallerState.attached 0) 5 200000 (Except.error ())
    (GrantBody.refreshTokenGrant "RTC") rfl rfl rfl (Or.inl rfl) rfl (by decide) (by decide)
